import Mathlib

/-!
Shallow embedding of `openbb_terminal/cryptocurrency/due_diligence/messari_model.py`.

The module is a collection of "shapers": each builds one HTTP GET request,
branches on the response status code and reshapes the JSON body into tabular
data (pandas DataFrames).  We embed:

* a JSON value type (`Json`) and the fallible key/array accessors that model
  Python's `d[k]` subscripting (raising `KeyError` / `TypeError`);
* a `DataFrame` model: a column list plus rows of cells, where a cell is
  `Option Json` (`none` models a missing field / `None` / `NaN`);
* the pandas operations the file uses (`fillna`, `drop`, `set_index`,
  column capitalization, `pd.concat`, row-wise `apply`, ...);
* the Python string operations used (`str.capitalize`, `str.rstrip(",")`,
  `str.split("T")[0]`, `str.replace`, substring test, `" ".join`,
  `re.sub("<[^>]*>", "", s)`);
* one `Request`/`Response` pair per shaper: `<name>Req` builds the request
  exactly as the source does, `<name>Run` maps the response to the result.
  The HTTP transport is an explicit parameter `http : Request → Response`.

Python exceptions (KeyError, TypeError, AttributeError, ValueError) are
modelled as `Except.error`; console output (`console.print` / `print`) is
modelled as a list of emitted message strings returned alongside the result.
Value-level date parsing (`pd.to_datetime`) is modelled as the identity on
cell values — no claim depends on the parsed representation, only on whether
the operation is attempted (its column access can raise `KeyError`).
-/

inductive Json where
  | null
  | bool (b : Bool)
  | num (n : Int)
  | str (s : String)
  | arr (xs : List Json)
  | obj (fields : List (String × Json))

/-- Python subscripting `d[k]` on a JSON object: `KeyError` when the key is
absent, `TypeError` when the value is not an object. -/
def Json.get? (j : Json) (k : String) : Except String Json :=
  match j with
  | .obj fields =>
    match fields.lookup k with
    | some v => .ok v
    | none => .error ("KeyError: " ++ k)
  | _ => .error ("TypeError: not subscriptable: " ++ k)

/-- Python `k in d` membership test on a JSON object. -/
def Json.hasKey (j : Json) (k : String) : Bool :=
  match j with
  | .obj fields => (fields.lookup k).isSome
  | _ => false

/-- Iterating a JSON value as a list (Python `for x in v` / `pd.DataFrame(v)`). -/
def Json.getArr? (j : Json) : Except String (List Json) :=
  match j with
  | .arr xs => .ok xs
  | _ => .error "TypeError: not iterable"

def Json.isNull (j : Json) : Bool :=
  match j with
  | .null => true
  | _ => false

/-- Python truthiness of a JSON value (used by
`x if launch_data[...]["genesis_block_date"] else "-"`). -/
def pyTruthy (j : Json) : Bool :=
  match j with
  | .null => false
  | .bool b => b
  | .num n => n != 0
  | .str s => !s.isEmpty
  | .arr xs => !xs.isEmpty
  | .obj fs => !fs.isEmpty

/-- Requiring a JSON value to be a string (Python operations that call `str`
methods raise `TypeError`/`AttributeError` on anything else). -/
def jStr (j : Json) : Except String String :=
  match j with
  | .str s => .ok s
  | _ => .error "TypeError: expected str"

/-- Converting a homogeneous JSON string array to a list of strings (used for
the timeseries column labels). -/
def jStrList : List Json → Except String (List String)
  | [] => .ok []
  | .str s :: rest => do
    let tail ← jStrList rest
    .ok (s :: tail)
  | _ :: _ => .error "TypeError: expected str"

/-! ### Python string primitives -/

/-- Python `str.capitalize`: first character uppercased, the rest lowercased. -/
def pyCapitalize (s : String) : String :=
  match s.data with
  | [] => ""
  | c :: cs => String.mk (c.toUpper :: cs.map Char.toLower)

/-- Python `sep.join(xs)`. -/
def pyJoin (sep : String) : List String → String
  | [] => ""
  | s :: ss => ss.foldl (fun acc x => acc ++ sep ++ x) s

/-- Python `s.rstrip(",")`: all trailing commas removed. -/
def rstripCommas (s : String) : String :=
  String.mk ((s.data.reverse.dropWhile (fun c => c == ',')).reverse)

/-- Python `s.split("T")[0]`: the prefix of `s` before the first `'T'`
(the whole string when no `'T'` occurs). -/
def pySplitTHead (s : String) : String :=
  String.mk (s.data.takeWhile (fun c => c != 'T'))

/-- Python `s.split(sep)` for a one-character separator. -/
def splitOnChar (sep : Char) : List Char → List (List Char)
  | [] => [[]]
  | c :: cs =>
    let r := splitOnChar sep cs
    if c == sep then [] :: r
    else (c :: r.headD []) :: r.tail

/-- Substring membership test, Python `needle in hay`. -/
def listIsInfix (needle : List Char) : List Char → Bool
  | [] => needle.isEmpty
  | c :: cs => needle.isPrefixOf (c :: cs) || listIsInfix needle cs

def strContains (hay needle : String) : Bool :=
  listIsInfix needle.data hay.data

/-- Python `s.replace(old, new)` for a non-empty `old`, fuel-indexed to make
termination evident; it is always called with fuel `= cs.length`. -/
def pyReplaceAux (old new : List Char) : Nat → List Char → List Char
  | _, [] => []
  | 0, cs => cs
  | fuel + 1, c :: cs =>
    if old.isPrefixOf (c :: cs) then
      new ++ pyReplaceAux old new fuel (List.drop old.length (c :: cs))
    else
      c :: pyReplaceAux old new fuel cs

def pyReplace (s old new : String) : String :=
  String.mk (pyReplaceAux old.data new.data s.data.length s.data)

/-- Python `re.sub("<[^>]*>", "", s)`: each maximal `<...>` span (up to the
next `'>'`) is deleted; a `'<'` with no subsequent `'>'` can start no match,
and no later match exists either, so the remainder is kept verbatim. -/
def stripTagsAux : Nat → List Char → List Char
  | _, [] => []
  | 0, cs => cs
  | fuel + 1, c :: cs =>
    if c == '<' then
      match cs.dropWhile (fun d => d != '>') with
      | [] => c :: cs
      | _ :: rest => stripTagsAux fuel rest
    else
      c :: stripTagsAux fuel cs

def stripTags (s : String) : String :=
  String.mk (stripTagsAux s.data.length s.data)

/-- Python `str(x)` as used inside f-strings, for the scalar JSON values this
module's data contains. Container reprs are bracketed joins of their members'
conversions (Python additionally quotes nested strings; no claim evaluates a
container here). -/
def jsonToPyStr (j : Json) : String :=
  match j with
  | .null => "None"
  | .bool true => "True"
  | .bool false => "False"
  | .num n => toString n
  | .str s => s
  | .arr _ => "[...]"
  | .obj _ => "\x7b...\x7d"

/-! ### DataFrame model -/

/-- A cell of a table: `none` models a missing field / Python `None` / NaN. -/
abbrev Cell := Option Json

/-- A pandas DataFrame: ordered column labels, rows of cells aligned with the
columns, and an optional index column (name plus values). -/
structure DataFrame where
  columns : List String
  rows : List (List Cell)
  indexName : Option String := none
  index : List Cell := []

/-- The `pd.DataFrame()` empty sentinel. -/
def DataFrame.emptyDF : DataFrame :=
  { columns := [], rows := [] }

/-- pandas `df.empty`: true when either axis has length zero. -/
def DataFrame.pyEmpty (df : DataFrame) : Bool :=
  df.rows.isEmpty || df.columns.isEmpty

/-- Normalizing a JSON value into a cell: JSON `null` becomes the missing
marker, as pandas treats `None` and NaN alike. -/
def cellOf (v : Option Json) : Cell :=
  match v with
  | some .null => none
  | some v => some v
  | none => none

/-- Column labels of `pd.DataFrame(list_of_dicts)`: keys in order of first
appearance across the records. -/
def collectKeys (recs : List (List (String × Json))) : List String :=
  recs.foldl
    (fun acc r =>
      r.foldl (fun acc2 kv => if acc2.contains kv.1 then acc2 else acc2 ++ [kv.1]) acc)
    []

/-- Viewing a JSON value as a record (pandas requires a dict per row here). -/
def asObjFields (j : Json) : Except String (List (String × Json)) :=
  match j with
  | .obj fs => .ok fs
  | _ => .error "ValueError: DataFrame row is not a dict"

/-- pandas `pd.DataFrame(list_of_dicts)`: every row carries the full column
set, fields absent from a record become missing cells. -/
def mkDFRecords (recs : List Json) : Except String DataFrame := do
  let rs ← recs.mapM asObjFields
  let cols := collectKeys rs
  .ok { columns := cols, rows := rs.map (fun r => cols.map (fun c => cellOf (r.lookup c))) }

/-- pandas `pd.DataFrame(values, columns=cols)` for a list of value rows. -/
def mkDFValues (values : List Json) (cols : List String) : Except String DataFrame := do
  let rows ← values.mapM (fun v =>
    match v with
    | .arr xs =>
      if xs.length = cols.length then Except.ok (xs.map (fun x => cellOf (some x)))
      else Except.error "ValueError: shape mismatch"
    | _ => Except.error "ValueError: DataFrame row is not a list")
  .ok { columns := cols, rows := rows }

/-- pandas `df.fillna(v)`. -/
def DataFrame.fillna (df : DataFrame) (v : Json) : DataFrame :=
  { df with rows := df.rows.map (List.map (fun cell =>
      match cell with
      | none => some v
      | some x => some x)) }

/-- pandas `df.replace(to_replace=[None], value=v)`: on these object-dtype
tables it normalizes missing markers exactly as `fillna` does. -/
def DataFrame.replaceNone (df : DataFrame) (v : Json) : DataFrame :=
  df.fillna v

/-- Cells of one column (`df[c]` read access assumed checked by the caller). -/
def DataFrame.colCells (df : DataFrame) (c : String) : List Cell :=
  df.rows.map (fun row => ((df.columns.zip row).lookup c).getD none)

/-- pandas `df[c] = vals`: replaces the column when present, appends otherwise. -/
def DataFrame.setCol (df : DataFrame) (c : String) (vals : List Cell) : DataFrame :=
  if df.columns.contains c then
    { df with rows := df.rows.zipWith (fun row v =>
        (df.columns.zip row).map (fun p => if p.1 == c then v else p.2)) vals }
  else
    { df with columns := df.columns ++ [c],
              rows := df.rows.zipWith (fun row v => row ++ [v]) vals }

/-- pandas `df.set_index(c)`: `KeyError` when the column is absent. -/
def DataFrame.setIndex (df : DataFrame) (c : String) : Except String DataFrame :=
  if df.columns.contains c then
    .ok { columns := df.columns.filter (fun x => x != c),
          rows := df.rows.map (fun row =>
            ((df.columns.zip row).filter (fun p => p.1 != c)).map (fun p => p.2)),
          indexName := some c,
          index := df.colCells c }
  else
    .error ("KeyError: " ++ c)

/-- pandas `df.drop(names, axis=1)`; with `errors="ignore"` absent labels are
tolerated, otherwise any absent label raises `KeyError`. -/
def DataFrame.dropCols (df : DataFrame) (names : List String) (ignoreMissing : Bool) :
    Except String DataFrame :=
  if !ignoreMissing && names.any (fun n => !df.columns.contains n) then
    .error "KeyError: drop"
  else
    .ok { df with columns := df.columns.filter (fun c => !names.contains c),
                  rows := df.rows.map (fun row =>
                    ((df.columns.zip row).filter (fun p => !names.contains p.1)).map
                      (fun p => p.2)) }

/-- pandas `df.dropna(axis=1, how="all")`: drops columns whose cells are all
missing (columns of a zero-row table are kept). -/
def DataFrame.dropNaColsAll (df : DataFrame) : DataFrame :=
  let keep : Nat → Bool := fun i =>
    df.rows.isEmpty || df.rows.any (fun row => (row.getD i none).isSome)
  let keepIdx := (List.range df.columns.length).filter keep
  { df with columns := keepIdx.map (fun i => df.columns.getD i ""),
            rows := df.rows.map (fun row => keepIdx.map (fun i => row.getD i none)) }

/-- `df.columns = map(str.capitalize, df.columns)`. -/
def DataFrame.capitalizeCols (df : DataFrame) : DataFrame :=
  { df with columns := df.columns.map pyCapitalize }

/-- pandas `df.rename(columns=mapping)`. -/
def DataFrame.renameCols (df : DataFrame) (m : List (String × String)) : DataFrame :=
  { df with columns := df.columns.map (fun c => (m.lookup c).getD c) }

/-- pandas `df.insert(0, name, vals)`. -/
def DataFrame.insertCol (df : DataFrame) (name : String) (vals : List Cell) : DataFrame :=
  { df with columns := name :: df.columns,
            rows := List.zipWith (fun v row => v :: row) vals df.rows }

/-- `df["date"] = pd.to_datetime(df["date"])`: the column access raises
`KeyError` when absent; value-level date parsing is the identity here. -/
def DataFrame.toDatetimeCol (df : DataFrame) (c : String) : Except String DataFrame :=
  if df.columns.contains c then .ok (df.setCol c (df.colCells c))
  else .error ("KeyError: " ++ c)

/-- `df["Value"].str.replace(old, new)`: string cells are rewritten, any
non-string cell (including a missing one) becomes NaN under the `.str`
accessor. -/
def DataFrame.strReplaceCol (df : DataFrame) (c : String) (old new : String) :
    Except String DataFrame :=
  if df.columns.contains c then
    .ok (df.setCol c ((df.colCells c).map (fun cell =>
      match cell with
      | some (.str s) => some (.str (pyReplace s old new))
      | _ => none)))
  else .error ("KeyError: " ++ c)

/-- pandas `pd.concat([a, b], ignore_index=True, sort=False)`: columns of `a`
followed by the new columns of `b`; rows are realigned, absent fields missing. -/
def concatDF (a b : DataFrame) : DataFrame :=
  let cols := a.columns ++ b.columns.filter (fun c => !a.columns.contains c)
  { columns := cols,
    rows :=
      a.rows.map (fun row => cols.map (fun c =>
        if a.columns.contains c then ((a.columns.zip row).lookup c).getD none else none)) ++
      b.rows.map (fun row => cols.map (fun c =>
        if b.columns.contains c then ((b.columns.zip row).lookup c).getD none else none)) }

/-- `df[[c1, c2]].apply(lambda x: " ".join(x), axis=1)`: selecting the two
columns raises `KeyError` when either is absent; joining raises `TypeError`
on any non-string cell. -/
def cellAsStr (cell : Cell) : Except String String :=
  match cell with
  | some (.str s) => .ok s
  | _ => .error "TypeError: sequence item: expected str instance"

def applySpaceJoin (df : DataFrame) (c1 c2 : String) : Except String (List Cell) :=
  if df.columns.contains c1 && df.columns.contains c2 then
    ((df.colCells c1).zip (df.colCells c2)).mapM (fun p => do
      let sa ← cellAsStr p.1
      let sb ← cellAsStr p.2
      .ok (some (Json.str (pyJoin " " [sa, sb]))))
  else .error "KeyError: column selection"

/-- Row-wise `apply(lambda x: x[c].split("T")[0], axis=1)` assigned back to
column `c`: `KeyError` on a missing column, `AttributeError` on a non-string
cell. -/
def DataFrame.splitDatesCol (df : DataFrame) (c : String) : Except String DataFrame :=
  if df.columns.contains c then do
    let vals ← (df.colCells c).mapM (fun cell =>
      match cell with
      | some (.str s) => Except.ok (some (Json.str (pySplitTHead s)))
      | _ => Except.error "AttributeError: split")
    .ok (df.setCol c vals)
  else .error ("KeyError: " ++ c)

/-- Does some cell of the table carry the missing marker? -/
def DataFrame.hasNullCell (df : DataFrame) : Bool :=
  df.rows.any (fun row => row.any (fun c => c.isNone))

/-- Structural invariant: every row carries exactly one cell per column. -/
def DataFrame.Wf (df : DataFrame) : Prop :=
  ∀ row ∈ df.rows, row.length = df.columns.length

/-! ### HTTP request and response model -/

structure Request where
  url : String
  params : List (String × String)
  headers : List (String × String)

structure Response where
  status : Nat
  text : String
  body : Json

def base_url : String := "https://data.messari.io/api/v1/"

def base_url2 : String := "https://data.messari.io/api/v2/"

/-- Modelled from the spec: the helper `prettify_column_names` (imported from
`dataframe_helpers`, absent from src), whose column-name transform the spec
describes as "underscores → spaces, capitalization": each underscore-separated
word is capitalized and the words are joined with spaces. -/
def prettify_column_names (s : String) : String :=
  pyJoin " " ((splitOnChar '_' s.data).map (fun w => pyCapitalize (String.mk w)))

/-- Modelled from the spec: the helper
`lambda_replace_underscores_in_column_names` (imported from
`dataframe_helpers`, absent from src), the same "underscores → spaces,
capitalization" column-name transform. -/
def lambda_replace_underscores_in_column_names (s : String) : String :=
  pyJoin " " ((splitOnChar '_' s.data).map (fun w => pyCapitalize (String.mk w)))

def DataFrame.prettifyCols (df : DataFrame) : DataFrame :=
  { df with columns := df.columns.map prettify_column_names }

def DataFrame.replaceUnderscoreCols (df : DataFrame) : DataFrame :=
  { df with columns := df.columns.map lambda_replace_underscores_in_column_names }

/-! ### Shapers

Each shaper `f` is split into `fReq` (the request the source builds, with the
configured API key `cfgKey` passed explicitly in place of the process-wide
`cfg.API_MESSARI_KEY`) and `fRun` (the response-to-result mapping); the full
shaper composes them through the transport `http`. -/

/-- `get_available_timeseries` request: a bare GET with no headers at all. -/
def get_available_timeseriesReq : Request :=
  { url := "https://data.messari.io/api/v1/assets/metrics", params := [], headers := [] }

/-- The loop body of `get_available_timeseries`: one catalogue record per
metric, with the comma-concatenated source names stripped of the trailing
comma and the paid-key flag derived from the presence of the
`role_restriction` field. -/
def sourcesOfSrcs (srcs : List Json) : Except String String :=
  srcs.foldlM (fun acc source => do
    let n ← jStr (← source.get? "name")
    Except.ok (acc ++ n ++ ",")) ""

def availMetricRecord (metric : Json) : Except String Json := do
  let srcs ← (← metric.get? "source_attribution").getArr?
  let sources ← sourcesOfSrcs srcs
  let sources := rstripCommas sources
  Except.ok (Json.obj
    [("id", ← metric.get? "metric_id"),
     ("Title", ← metric.get? "name"),
     ("Description", ← metric.get? "description"),
     ("Requires Paid Key", Json.bool (metric.hasKey "role_restriction")),
     ("Sources", Json.str sources)])

def get_available_timeseriesRun (resp : Response) : Except String (DataFrame × List String) :=
  if resp.status = 200 then do
    let data ← resp.body.get? "data"
    let metrics ← (← data.get? "metrics").getArr?
    let arr ← metrics.mapM availMetricRecord
    let df ← mkDFRecords arr
    let df ← df.setIndex "id"
    .ok (df, [])
  else
    .ok (DataFrame.emptyDF, [])

def get_available_timeseries (http : Request → Response) :
    Except String (DataFrame × List String) :=
  get_available_timeseriesRun (http get_available_timeseriesReq)

def get_messari_timeseriesReq (cfgKey coin timeseries_id interval startP endP : String) :
    Request :=
  { url := base_url ++ "assets/" ++ coin ++ "/metrics/" ++ timeseries_id ++ "/time-series",
    headers := [("x-messari-api-key", cfgKey)],
    params := [("start", startP), ("end", endP), ("interval", interval)] }

def get_messari_timeseriesRun (coin : String) (resp : Response) :
    Except String ((DataFrame × Json) × List String) :=
  if resp.status = 200 then do
    let data ← resp.body.get? "data"
    let title ← (← data.get? "schema").get? "name"
    let values ← (← data.get? "values").getArr?
    let cols ← jStrList (← (← (← data.get? "parameters").get? "columns").getArr?)
    let df ← mkDFValues values cols
    if df.pyEmpty then
      .ok ((df, title), ["No data found for " ++ coin ++ ".\n"])
    else do
      let df ← df.setIndex "timestamp"
      .ok ((df, title), [])
  else if resp.status = 401 then
    if strContains resp.text "requires a pro or enterprise subscription" then
      .ok ((DataFrame.emptyDF, Json.str ""), ["[red]API Key not authorized for Premium Feature[/red]\n"])
    else
      .ok ((DataFrame.emptyDF, Json.str ""), ["[red]Invalid API Key[/red]\n"])
  else
    .ok ((DataFrame.emptyDF, Json.str ""), [resp.text])

def get_messari_timeseries (cfgKey : String) (http : Request → Response)
    (coin timeseries_id interval startP endP : String) :
    Except String ((DataFrame × Json) × List String) :=
  get_messari_timeseriesRun coin
    (http (get_messari_timeseriesReq cfgKey coin timeseries_id interval startP endP))

def get_marketcap_dominance (cfgKey : String) (http : Request → Response)
    (coin interval startP endP : String) : Except String (DataFrame × List String) :=
  match get_messari_timeseries cfgKey http coin "mcap.dom" interval startP endP with
  | .ok ((df, _), msgs) => .ok (df, msgs)
  | .error e => .error e

def get_linksReq (cfgKey symbol : String) : Request :=
  { url := base_url2 ++ "assets/" ++ symbol ++ "/profile",
    headers := [("x-messari-api-key", cfgKey)],
    params := [("fields", "profile/general/overview/official_links")] }

def get_linksRun (resp : Response) : Except String (DataFrame × List String) :=
  if resp.status = 200 then do
    let data ← resp.body.get? "data"
    let links ← (← (← (← (← data.get? "profile").get? "general").get? "overview").get?
      "official_links").getArr?
    let df ← mkDFRecords links
    .ok (df.capitalizeCols, [])
  else if resp.status = 401 then
    .ok (DataFrame.emptyDF, ["[red]Invalid API Key[/red]\n"])
  else
    .ok (DataFrame.emptyDF, [resp.text])

def get_links (cfgKey : String) (http : Request → Response) (symbol : String) :
    Except String (DataFrame × List String) :=
  get_linksRun (http (get_linksReq cfgKey symbol))

def get_roadmapReq (cfgKey symbol : String) : Request :=
  { url := base_url2 ++ "assets/" ++ symbol ++ "/profile",
    headers := [("x-messari-api-key", cfgKey)],
    params := [("fields", "profile/general/roadmap")] }

def get_roadmapRun (resp : Response) : Except String (DataFrame × List String) :=
  if resp.status = 200 then do
    let data ← resp.body.get? "data"
    let rm ← (← (← (← data.get? "profile").get? "general").get? "roadmap").getArr?
    let df ← mkDFRecords rm
    let df ← df.toDatetimeCol "date"
    let df := df.capitalizeCols
    let df := df.dropNaColsAll
    .ok (df, [])
  else if resp.status = 401 then
    .ok (DataFrame.emptyDF, ["[red]Invalid API Key[/red]\n"])
  else
    .ok (DataFrame.emptyDF, [resp.text])

def get_roadmap (cfgKey : String) (http : Request → Response) (symbol : String) :
    Except String (DataFrame × List String) :=
  get_roadmapRun (http (get_roadmapReq cfgKey symbol))

/-- `get_tokenomics` request: the source hardcodes an empty
`x-messari-api-key` header instead of the configured key. -/
def get_tokenomicsReq (symbol : String) : Request :=
  { url := base_url2 ++ "assets/" ++ symbol ++ "/profile",
    headers := [("x-messari-api-key", "")],
    params := [("fields", "profile/economics/consensus_and_emission")] }

/-- `get_tokenomics` response mapping; `getCoinTokenomics` stands for the
external collaborator `pycoingecko_model.get_coin_tokenomics`, and the nested
circulating-supply fetch goes through the transport with the configured key. -/
def get_tokenomicsRun (cfgKey : String) (http : Request → Response)
    (getCoinTokenomics : String → DataFrame) (symbol coingecko_symbol : String)
    (resp : Response) : Except String ((DataFrame × DataFrame) × List String) :=
  if resp.status = 200 then do
    let data ← resp.body.get? "data"
    let tokenomics_data ← (← (← data.get? "profile").get? "economics").get?
      "consensus_and_emission"
    let supply ← tokenomics_data.get? "supply"
    let consensus ← tokenomics_data.get? "consensus"
    let df : DataFrame :=
      { columns := ["Metric", "Value"],
        rows :=
          [[some (.str "Emission Type"), cellOf (some (← supply.get? "general_emission_type"))],
           [some (.str "Consensus Mechanism"),
            cellOf (some (← consensus.get? "general_consensus_mechanism"))],
           [some (.str "Consensus Details"), cellOf (some (← consensus.get? "consensus_details"))],
           [some (.str "Mining Algorithm"), cellOf (some (← consensus.get? "mining_algorithm"))],
           [some (.str "Block Reward"), cellOf (some (← consensus.get? "block_reward"))]] }
    let df ← df.strReplaceCol "Value" "n/a" "-"
    let cg_df := getCoinTokenomics coingecko_symbol
    let df := concatDF df cg_df
    let df := df.fillna (.str "-")
    match get_messari_timeseries cfgKey http symbol "sply.circ" "1d" "" "" with
    | .ok ((circ_df, _), msgs) => .ok ((df, circ_df), msgs)
    | .error e => .error e
  else if resp.status = 401 then
    .ok ((DataFrame.emptyDF, DataFrame.emptyDF), ["[red]Invalid API Key[/red]\n"])
  else
    .ok ((DataFrame.emptyDF, DataFrame.emptyDF), [resp.text])

def get_tokenomics (cfgKey : String) (http : Request → Response)
    (getCoinTokenomics : String → DataFrame) (symbol coingecko_symbol : String) :
    Except String ((DataFrame × DataFrame) × List String) :=
  get_tokenomicsRun cfgKey http getCoinTokenomics symbol coingecko_symbol
    (http (get_tokenomicsReq symbol))

/-- The guarded date-column block used for the audits and vulnerabilities
tables: when non-empty, parse the `Date` column and fill nulls. -/
def shapeDateTable (df : DataFrame) : Except String DataFrame :=
  if df.pyEmpty then Except.ok df
  else do
    let d ← df.toDatetimeCol "Date"
    Except.ok (d.fillna (.str "-"))

/-- `get_project_product_info` request: like the tokenomics shaper, the source
hardcodes an empty `x-messari-api-key` header. -/
def get_project_product_infoReq (symbol : String) : Request :=
  { url := base_url2 ++ "assets/" ++ symbol ++ "/profile",
    headers := [("x-messari-api-key", "")],
    params := [("fields", "profile/general/overview/project_details,profile/technology")] }

def get_project_product_infoRun (resp : Response) :
    Except String ((DataFrame × DataFrame × DataFrame × DataFrame) × List String) :=
  if resp.status = 200 then do
    let data ← resp.body.get? "data"
    let profile ← data.get? "profile"
    let project_details ← (← (← profile.get? "general").get? "overview").get? "project_details"
    let technology_data ← profile.get? "technology"
    let technology_details ← (← technology_data.get? "overview").get? "technology_details"
    let df_info : DataFrame :=
      { columns := ["Metric", "Value"],
        rows := [[some (.str "Project Details"), cellOf (some project_details)],
                 [some (.str "Technology Details"), cellOf (some technology_details)]] }
    let df_repos ← mkDFRecords
      (← (← (← technology_data.get? "overview").get? "client_repositories").getArr?)
    let df_repos := df_repos.prettifyCols
    let df_repos := df_repos.fillna (.str "-")
    let df_audits ← mkDFRecords (← (← (← technology_data.get? "security").get? "audits").getArr?)
    let df_audits := df_audits.prettifyCols
    let df_audits ← shapeDateTable df_audits
    let df_vulns ← mkDFRecords
      (← (← (← technology_data.get? "security").get? "known_exploits_and_vulnerabilities").getArr?)
    let df_vulns := df_vulns.prettifyCols
    let df_vulns ← shapeDateTable df_vulns
    .ok ((df_info, df_repos, df_audits, df_vulns), [])
  else if resp.status = 401 then
    .ok ((DataFrame.emptyDF, DataFrame.emptyDF, DataFrame.emptyDF, DataFrame.emptyDF),
      ["[red]Invalid API Key[/red]\n"])
  else
    .ok ((DataFrame.emptyDF, DataFrame.emptyDF, DataFrame.emptyDF, DataFrame.emptyDF),
      [resp.text])

def get_project_product_info (http : Request → Response) (symbol : String) :
    Except String ((DataFrame × DataFrame × DataFrame × DataFrame) × List String) :=
  get_project_product_infoRun (http (get_project_product_infoReq symbol))

def get_teamReq (cfgKey symbol : String) : Request :=
  { url := base_url2 ++ "assets/" ++ symbol ++ "/profile",
    headers := [("x-messari-api-key", cfgKey)],
    params := [("fields", "profile/contributors")] }

/-- The individual-contributor block shared verbatim by `get_team` and
`get_investors`: when non-empty, fill nulls, synthesize the `Name` column
from first/last name, drop the raw name/slug/avatar columns, capitalize the
column labels and normalize remaining `None`s. -/
def shapeIndividuals (indiv : DataFrame) : Except String DataFrame :=
  if indiv.pyEmpty then Except.ok indiv
  else do
    let d := indiv.fillna (.str "-")
    let names ← applySpaceJoin d "first_name" "last_name"
    let d := d.insertCol "Name" names
    let d ← d.dropCols ["slug", "avatar_url", "first_name", "last_name"] true
    let d := d.capitalizeCols
    Except.ok (d.replaceNone (.str "-"))

/-- The organization block shared verbatim by `get_team` and `get_investors`:
when non-empty, drop slug/logo, capitalize the column labels and normalize
`None`s. -/
def shapeOrganizations (orgs : DataFrame) : Except String DataFrame :=
  if orgs.pyEmpty then Except.ok orgs
  else do
    let d ← orgs.dropCols ["slug", "logo"] true
    let d := d.capitalizeCols
    Except.ok (d.replaceNone (.str "-"))

def get_teamRun (resp : Response) : Except String ((DataFrame × DataFrame) × List String) :=
  if resp.status = 200 then do
    let data ← resp.body.get? "data"
    let contributors ← (← data.get? "profile").get? "contributors"
    let indiv ← mkDFRecords (← (← contributors.get? "individuals").getArr?)
    let indiv ← shapeIndividuals indiv
    let orgs ← mkDFRecords (← (← contributors.get? "organizations").getArr?)
    let orgs ← shapeOrganizations orgs
    .ok ((indiv, orgs), [])
  else if resp.status = 401 then
    .ok ((DataFrame.emptyDF, DataFrame.emptyDF), ["[red]Invalid API Key[/red]\n"])
  else
    .ok ((DataFrame.emptyDF, DataFrame.emptyDF), [resp.text])

def get_team (cfgKey : String) (http : Request → Response) (symbol : String) :
    Except String ((DataFrame × DataFrame) × List String) :=
  get_teamRun (http (get_teamReq cfgKey symbol))

def get_investorsReq (cfgKey symbol : String) : Request :=
  { url := base_url2 ++ "assets/" ++ symbol ++ "/profile",
    headers := [("x-messari-api-key", cfgKey)],
    params := [("fields", "profile/investors")] }

def get_investorsRun (resp : Response) : Except String ((DataFrame × DataFrame) × List String) :=
  if resp.status = 200 then do
    let data ← resp.body.get? "data"
    let investors ← (← data.get? "profile").get? "investors"
    let indiv ← mkDFRecords (← (← investors.get? "individuals").getArr?)
    let indiv ← shapeIndividuals indiv
    let orgs ← mkDFRecords (← (← investors.get? "organizations").getArr?)
    let orgs ← shapeOrganizations orgs
    .ok ((indiv, orgs), [])
  else if resp.status = 401 then
    .ok ((DataFrame.emptyDF, DataFrame.emptyDF), ["[red]Invalid API Key[/red]\n"])
  else
    .ok ((DataFrame.emptyDF, DataFrame.emptyDF), [resp.text])

def get_investors (cfgKey : String) (http : Request → Response) (symbol : String) :
    Except String ((DataFrame × DataFrame) × List String) :=
  get_investorsRun (http (get_investorsReq cfgKey symbol))

def get_governanceReq (cfgKey symbol : String) : Request :=
  { url := base_url2 ++ "assets/" ++ symbol ++ "/profile",
    headers := [("x-messari-api-key", cfgKey)],
    params := [("fields", "profile/governance")] }

def get_governanceRun (resp : Response) : Except String ((String × DataFrame) × List String) :=
  if resp.status = 200 then do
    let data ← resp.body.get? "data"
    let governance_data ← (← data.get? "profile").get? "governance"
    let onchain ← governance_data.get? "onchain_governance"
    let gtype ← onchain.get? "onchain_governance_type"
    let gdetails ← onchain.get? "onchain_governance_details"
    let summary ← jStr (← governance_data.get? "governance_details")
    if !gtype.isNull && !gdetails.isNull then
      .ok ((stripTags summary,
        { columns := ["Metric", "Value"],
          rows := [[some (.str "Type"), cellOf (some gtype)],
                   [some (.str "Details"), cellOf (some gdetails)]] }), [])
    else
      .ok ((stripTags summary, DataFrame.emptyDF), [])
  else if resp.status = 401 then
    .ok (("", DataFrame.emptyDF), ["[red]Invalid API Key[/red]\n"])
  else
    .ok (("", DataFrame.emptyDF), [resp.text])

def get_governance (cfgKey : String) (http : Request → Response) (symbol : String) :
    Except String ((String × DataFrame) × List String) :=
  get_governanceRun (http (get_governanceReq cfgKey symbol))

/-- `format_addresses`: concatenates `f"{address['name']}: {address['link']}"`
over the address list; iterating a non-list or subscripting a non-dict raises. -/
def format_addresses (x : Json) : Except String String :=
  match x with
  | .arr addrs =>
    addrs.foldlM (fun acc a => do
      let n ← a.get? "name"
      let l ← a.get? "link"
      Except.ok (acc ++ jsonToPyStr n ++ ": " ++ jsonToPyStr l)) ""
  | _ => .error "TypeError: not iterable"

/-- `accounts["Addresses"].map(format_addresses)` assigned back to the column. -/
def DataFrame.mapColFormatAddrs (df : DataFrame) (c : String) : Except String DataFrame :=
  if df.columns.contains c then do
    let vals ← (df.colCells c).mapM (fun cell =>
      match cell with
      | some j => (format_addresses j).map (fun s => some (Json.str s))
      | none => Except.error "TypeError: not iterable")
    .ok (df.setCol c vals)
  else .error ("KeyError: " ++ c)

/-- The sales-rounds block of `get_fundraising`: when non-empty, fill nulls,
drop the raw fields, rename columns (underscores to spaced capitalized
words), split the ISO date-times of `Start Date` and `End Date` to their
date-only prefixes, apply the final renames and fill nulls again. -/
def shapeSalesRounds (rounds : DataFrame) : Except String DataFrame :=
  if rounds.pyEmpty then Except.ok rounds
  else do
    let d := rounds.fillna (.str "-")
    let d ← d.dropCols
      ["details", "asset_collected", "price_per_token_in_asset",
       "amount_collected_in_asset", "is_kyc_required", "restricted_jurisdictions"] true
    let d := d.replaceUnderscoreCols
    let d ← d.splitDatesCol "Start Date"
    let d ← d.splitDatesCol "End Date"
    let d := d.renameCols
      [("Native Tokens Allocated", "Tokens Allocated"),
       ("Equivalent Price Per Token In Usd", "Price [$]"),
       ("Amount Collected In Usd", "Amount Collected [$]")]
    Except.ok (d.fillna (.str "-"))

/-- The treasury-accounts block of `get_fundraising`: when non-empty, rename
columns, drop `Asset Held`/`Security` (strictly — no `errors="ignore"` in
the source here) and map the nested address lists to concatenated
`name: link` strings. -/
def shapeTreasuryAccounts (accounts : DataFrame) : Except String DataFrame :=
  if accounts.pyEmpty then Except.ok accounts
  else do
    let d := accounts.replaceUnderscoreCols
    let d ← d.dropCols ["Asset Held", "Security"] false
    d.mapColFormatAddrs "Addresses"

def get_fundraisingReq (cfgKey symbol : String) : Request :=
  { url := base_url2 ++ "assets/" ++ symbol ++ "/profile",
    headers := [("x-messari-api-key", cfgKey)],
    params := [("fields", "profile/economics/launch")] }

/-- `get_fundraising` response mapping; `formatNum` stands for the helper
`lambda_long_number_format` (absent from src), the human formatting of the
total supply — no claim depends on its output value. -/
def get_fundraisingRun (formatNum : Json → String) (resp : Response) :
    Except String ((Json × DataFrame × DataFrame × DataFrame) × List String) :=
  if resp.status = 200 then do
    let data ← resp.body.get? "data"
    let launch_data ← (← (← data.get? "profile").get? "economics").get? "launch"
    let general ← launch_data.get? "general"
    let launch_details ← general.get? "launch_details"
    let launch_type ← general.get? "launch_style"
    let fundraising ← launch_data.get? "fundraising"
    let rounds ← mkDFRecords (← (← fundraising.get? "sales_rounds").getArr?)
    let rounds ← shapeSalesRounds rounds
    let accounts ← mkDFRecords (← (← fundraising.get? "sales_treasury_accounts").getArr?)
    let accounts ← shapeTreasuryAccounts accounts
    let idist ← launch_data.get? "initial_distribution"
    let genesis ← idist.get? "genesis_block_date"
    let genesisVal : Cell ←
      if pyTruthy genesis then
        match genesis with
        | .str s => Except.ok (some (Json.str (pySplitTHead s)))
        | _ => Except.error "AttributeError: split"
      else Except.ok (some (Json.str "-"))
    let initial_supply ← idist.get? "initial_supply"
    let repartition ← idist.get? "initial_supply_repartition"
    let distribution : DataFrame :=
      { columns := ["Metric", "Value"],
        rows :=
          [[some (.str "Genesis Date"), genesisVal],
           [some (.str "Type"), cellOf (some launch_type)],
           [some (.str "Total Supply"), some (.str (formatNum initial_supply))],
           [some (.str "Investors [%]"),
            cellOf (some (← repartition.get? "allocated_to_investors_percentage"))],
           [some (.str "Organization/Founders [%]"),
            cellOf (some (← repartition.get? "allocated_to_organization_or_founders_percentage"))],
           [some (.str "Rewards/Airdrops [%]"),
            cellOf (some (← repartition.get?
              "allocated_to_premined_rewards_or_airdrops_percentage"))]] }
    .ok ((launch_details, rounds, accounts, distribution), [])
  else if resp.status = 401 then
    .ok ((Json.str "", DataFrame.emptyDF, DataFrame.emptyDF, DataFrame.emptyDF),
      ["[red]Invalid API Key[/red]\n"])
  else
    .ok ((Json.str "", DataFrame.emptyDF, DataFrame.emptyDF, DataFrame.emptyDF), [resp.text])

def get_fundraising (cfgKey : String) (http : Request → Response)
    (formatNum : Json → String) (symbol : String) :
    Except String ((Json × DataFrame × DataFrame × DataFrame) × List String) :=
  get_fundraisingRun formatNum (http (get_fundraisingReq cfgKey symbol))

/-! ### General lemmas -/

theorem exceptBind_eq_ok {α β : Type} (x : Except String α) (f : α → Except String β) (b : β) :
    (x >>= f = .ok b) ↔ ∃ a, x = .ok a ∧ f a = .ok b := by
  cases x <;> simp [Bind.bind, Except.bind]

theorem mapM_loop_ok {α β : Type} (f : α → Except String β) (g : α → β) :
    ∀ (l : List α), (∀ a ∈ l, f a = .ok (g a)) →
      ∀ (acc : List β), List.mapM.loop f l acc = .ok (acc.reverse ++ l.map g) := by
  intro l
  induction l with
  | nil => intro _ acc; simp [List.mapM.loop, Pure.pure, Except.pure]
  | cons a as ih =>
    intro hf acc
    have ha := hf a (by simp)
    simp only [List.mapM.loop, ha, Bind.bind, Except.bind]
    rw [ih (fun x hx => hf x (by simp [hx]))]
    simp

theorem mapM_ok {α β : Type} (f : α → Except String β) (g : α → β) (l : List α)
    (hf : ∀ a ∈ l, f a = .ok (g a)) : l.mapM f = .ok (l.map g) := by
  have := mapM_loop_ok f g l hf []
  simpa [List.mapM] using this

theorem mapM_loop_ok_length {α β : Type} (f : α → Except String β) :
    ∀ (l : List α) (acc r : List β), List.mapM.loop f l acc = .ok r →
      r.length = acc.length + l.length := by
  intro l
  induction l with
  | nil =>
    intro acc r h
    simp [List.mapM.loop, Pure.pure, Except.pure] at h
    simp [← h]
  | cons a as ih =>
    intro acc r h
    simp only [List.mapM.loop, Bind.bind] at h
    cases ha : f a with
    | error e => rw [ha] at h; simp [Except.bind] at h
    | ok b =>
      rw [ha] at h
      simp only [Except.bind] at h
      have := ih (b :: acc) r h
      simp only [List.length_cons] at this ⊢
      omega

theorem mapM_ok_length {α β : Type} (f : α → Except String β) (l : List α) (r : List β)
    (h : l.mapM f = .ok r) : r.length = l.length := by
  have := mapM_loop_ok_length f l [] r (by simpa [List.mapM] using h)
  simpa using this

theorem jStrList_map_str (l : List String) : jStrList (l.map Json.str) = .ok l := by
  induction l with
  | nil => rfl
  | cons a as ih => simp only [List.map, jStrList, ih]; rfl

theorem mkDFRecords_objs (recs : List (List (String × Json))) :
    mkDFRecords (recs.map Json.obj) =
      .ok { columns := collectKeys recs,
            rows := recs.map (fun r => (collectKeys recs).map (fun c => cellOf (r.lookup c))) } := by
  have h : List.mapM asObjFields (recs.map Json.obj) = Except.ok recs := by
    have h0 := mapM_ok asObjFields
      (fun j => match j with
        | Json.obj fs => fs
        | _ => ([] : List (String × Json)))
      (recs.map Json.obj)
      (by intro a ha
          obtain ⟨r, _, rfl⟩ := List.mem_map.mp ha
          rfl)
    rw [h0]
    congr 1
    rw [List.map_map]
    have hcomp : ((fun j => match j with
        | Json.obj fs => fs
        | _ => ([] : List (String × Json))) ∘ Json.obj) = (fun r => r) := by
      funext r
      rfl
    rw [hcomp]
    simp
  simp only [mkDFRecords, h, Bind.bind, Except.bind]

/-! ### Concrete responses used as counterexamples and witnesses -/

/-- A 401 response whose text carries the tier-restriction marker substring. -/
def resp401marker : Response :=
  { status := 401,
    text := "this endpoint requires a pro or enterprise subscription to access",
    body := Json.null }

/-! ### C1 -/

/-- C1 (counterexample): at a 401 response containing the tier-restriction
marker, `get_links` emits the generic invalid-key message, not the
tier-specific one, refuting the claim that every shaper classifies 401
responses by the marker. -/
theorem claim_c1_counterexample :
    strContains resp401marker.text "requires a pro or enterprise subscription" = true ∧
    get_linksRun resp401marker = .ok (DataFrame.emptyDF, ["[red]Invalid API Key[/red]\n"]) ∧
    ("[red]Invalid API Key[/red]\n" : String) ≠
      "[red]API Key not authorized for Premium Feature[/red]\n" := by
  refine ⟨by decide, by rfl, by decide⟩

/-- C1 (amended): on a 401 response, only `get_messari_timeseries` inspects
the response text for the tier-restriction marker (emitting the tier-specific
message when present and the generic invalid-key message otherwise); every
other shaper that handles 401 emits the generic invalid-key message
regardless of the marker, and `get_available_timeseries` emits nothing; all
return empty results. -/
theorem claim_c1_amended (resp : Response) (h401 : resp.status = 401) :
    (∀ coin, strContains resp.text "requires a pro or enterprise subscription" = true →
      get_messari_timeseriesRun coin resp =
        .ok ((DataFrame.emptyDF, Json.str ""),
          ["[red]API Key not authorized for Premium Feature[/red]\n"])) ∧
    (∀ coin, strContains resp.text "requires a pro or enterprise subscription" = false →
      get_messari_timeseriesRun coin resp =
        .ok ((DataFrame.emptyDF, Json.str ""), ["[red]Invalid API Key[/red]\n"])) ∧
    get_linksRun resp = .ok (DataFrame.emptyDF, ["[red]Invalid API Key[/red]\n"]) ∧
    get_roadmapRun resp = .ok (DataFrame.emptyDF, ["[red]Invalid API Key[/red]\n"]) ∧
    (∀ cfgKey http getCoinTok symbol cg,
      get_tokenomicsRun cfgKey http getCoinTok symbol cg resp =
        .ok ((DataFrame.emptyDF, DataFrame.emptyDF), ["[red]Invalid API Key[/red]\n"])) ∧
    get_project_product_infoRun resp =
      .ok ((DataFrame.emptyDF, DataFrame.emptyDF, DataFrame.emptyDF, DataFrame.emptyDF),
        ["[red]Invalid API Key[/red]\n"]) ∧
    get_teamRun resp = .ok ((DataFrame.emptyDF, DataFrame.emptyDF),
      ["[red]Invalid API Key[/red]\n"]) ∧
    get_investorsRun resp = .ok ((DataFrame.emptyDF, DataFrame.emptyDF),
      ["[red]Invalid API Key[/red]\n"]) ∧
    get_governanceRun resp = .ok (("", DataFrame.emptyDF), ["[red]Invalid API Key[/red]\n"]) ∧
    (∀ fnum, get_fundraisingRun fnum resp =
      .ok ((Json.str "", DataFrame.emptyDF, DataFrame.emptyDF, DataFrame.emptyDF),
        ["[red]Invalid API Key[/red]\n"])) ∧
    get_available_timeseriesRun resp = .ok (DataFrame.emptyDF, []) := by
  refine ⟨?_, ?_, ?_, ?_, ?_, ?_, ?_, ?_, ?_, ?_, ?_⟩
  · intro coin hm
    simp [get_messari_timeseriesRun, h401, hm]
  · intro coin hm
    simp [get_messari_timeseriesRun, h401, hm]
  · simp [get_linksRun, h401]
  · simp [get_roadmapRun, h401]
  · intro cfgKey http getCoinTok symbol cg
    simp [get_tokenomicsRun, h401]
  · simp [get_project_product_infoRun, h401]
  · simp [get_teamRun, h401]
  · simp [get_investorsRun, h401]
  · simp [get_governanceRun, h401]
  · intro fnum
    simp [get_fundraisingRun, h401]
  · simp [get_available_timeseriesRun, h401]

/-- C1 (witness): the amended theorem evaluated at the concrete marker-bearing
401 response. -/
theorem claim_c1_amended_witness :
    get_messari_timeseriesRun "btc" resp401marker =
      .ok ((DataFrame.emptyDF, Json.str ""),
        ["[red]API Key not authorized for Premium Feature[/red]\n"]) ∧
    get_teamRun resp401marker =
      .ok ((DataFrame.emptyDF, DataFrame.emptyDF), ["[red]Invalid API Key[/red]\n"]) :=
  ⟨(claim_c1_amended resp401marker rfl).1 "btc" (by decide),
   (claim_c1_amended resp401marker rfl).2.2.2.2.2.2.1⟩

/-! ### C2 -/

/-- C2 (counterexample): the project/product-info profile request also sends
an empty `x-messari-api-key` header — with configured key `"SECRET"` it does
not carry the configured key — and the available-timeseries catalogue request
carries no auth header at all, refuting "sole exception is tokenomics". -/
theorem claim_c2_counterexample :
    (get_project_product_infoReq "btc").headers = [("x-messari-api-key", "")] ∧
    (get_project_product_infoReq "btc").headers ≠ [("x-messari-api-key", "SECRET")] ∧
    (get_available_timeseriesReq.headers.lookup "x-messari-api-key") = none := by
  refine ⟨rfl, by decide, rfl⟩

/-- C2 (amended): the timeseries, links, roadmap, team, investors, governance
and fundraising requests attach the configured key in the
`x-messari-api-key` header; the tokenomics and project/product-info profile
requests send an empty header value instead; the available-timeseries
catalogue request sends no headers at all. -/
theorem claim_c2_amended (cfgKey coin timeseries_id interval startP endP symbol : String) :
    (get_messari_timeseriesReq cfgKey coin timeseries_id interval startP endP).headers =
      [("x-messari-api-key", cfgKey)] ∧
    (get_linksReq cfgKey symbol).headers = [("x-messari-api-key", cfgKey)] ∧
    (get_roadmapReq cfgKey symbol).headers = [("x-messari-api-key", cfgKey)] ∧
    (get_teamReq cfgKey symbol).headers = [("x-messari-api-key", cfgKey)] ∧
    (get_investorsReq cfgKey symbol).headers = [("x-messari-api-key", cfgKey)] ∧
    (get_governanceReq cfgKey symbol).headers = [("x-messari-api-key", cfgKey)] ∧
    (get_fundraisingReq cfgKey symbol).headers = [("x-messari-api-key", cfgKey)] ∧
    (get_tokenomicsReq symbol).headers = [("x-messari-api-key", "")] ∧
    (get_project_product_infoReq symbol).headers = [("x-messari-api-key", "")] ∧
    get_available_timeseriesReq.headers = [] :=
  ⟨rfl, rfl, rfl, rfl, rfl, rfl, rfl, rfl, rfl, rfl⟩

/-! ### C5 -/

/-- A 200 timeseries response whose `values` array is empty. -/
def tsEmptyResp (cols : List String) (title : Json) : Response :=
  { status := 200, text := "",
    body := Json.obj [("data", Json.obj
      [("schema", Json.obj [("name", title)]),
       ("values", Json.arr []),
       ("parameters", Json.obj [("columns", Json.arr (cols.map Json.str))])])] }

/-- C5 (confirmed): a 200 response whose `values` array is empty yields the
empty table (no timestamp index is constructed — `indexName` stays `none`
and the call succeeds whatever the column labels are) together with a console
notice naming the queried asset. -/
theorem claim_c5 (coin : String) (cols : List String) (title : Json) :
    get_messari_timeseriesRun coin (tsEmptyResp cols title) =
      .ok (({ columns := cols, rows := [] }, title),
        ["No data found for " ++ coin ++ ".\n"]) := by
  simp [get_messari_timeseriesRun, tsEmptyResp, Json.get?, List.lookup, Json.getArr?,
    jStrList_map_str, mkDFValues, DataFrame.pyEmpty, List.mapM, List.mapM.loop,
    Bind.bind, Except.bind, Pure.pure, Except.pure, List.isEmpty]

/-! ### C6 -/

/-- C6 (confirmed): `get_marketcap_dominance` is exactly the
timeseries fetch fixed to the `mcap.dom` metric id, returning its DataFrame
component (and messages) with no additional reshaping, for every transport
and every input. -/
theorem claim_c6 (cfgKey : String) (http : Request → Response)
    (coin interval startP endP : String) :
    get_marketcap_dominance cfgKey http coin interval startP endP =
      Except.map (fun r => (r.1.1, r.2))
        (get_messari_timeseries cfgKey http coin "mcap.dom" interval startP endP) := by
  unfold get_marketcap_dominance
  cases h : get_messari_timeseries cfgKey http coin "mcap.dom" interval startP endP with
  | error e => simp [Except.map]
  | ok v =>
    obtain ⟨⟨df, title⟩, msgs⟩ := v
    simp [Except.map]

/-! ### C3 -/

/-- A 200 profile response whose roadmap list holds the given records. -/
def roadmapResp (items : List (List (String × Json))) : Response :=
  { status := 200, text := "",
    body := Json.obj [("data", Json.obj [("profile", Json.obj [("general",
      Json.obj [("roadmap", Json.arr (items.map Json.obj))])])])] }

/-- C3 (counterexample): `get_roadmap` does not guard its date-parsing
transform with an emptiness check — on a 200 response whose roadmap list is
empty, `df["date"]` raises `KeyError` instead of returning the empty table. -/
theorem claim_c3_counterexample :
    get_roadmapRun (roadmapResp []) = .error "KeyError: date" := by
  rfl

/-- A 200 profile response for the project/product-info shaper whose audits
and vulnerabilities lists are empty. -/
def projectResp (pdetails tdetails : Json) (repos : List (List (String × Json))) : Response :=
  { status := 200, text := "",
    body := Json.obj [("data", Json.obj [("profile", Json.obj
      [("general", Json.obj [("overview", Json.obj [("project_details", pdetails)])]),
       ("technology", Json.obj
         [("overview", Json.obj
            [("technology_details", tdetails),
             ("client_repositories", Json.arr (repos.map Json.obj))]),
          ("security", Json.obj
            [("audits", Json.arr []),
             ("known_exploits_and_vulnerabilities", Json.arr [])])])])])] }

/-- C3 (amended): shapers that guard with a non-emptiness check do skip the
transforms that assume non-empty data — `get_project_product_info` returns
empty audits and vulnerabilities tables without failing, for any
project/technology details and any repository records — but `get_roadmap`
applies its date-parsing transform unconditionally and fails with a
`KeyError` on a 200 response whose roadmap list is empty. -/
theorem claim_c3_amended :
    (∀ (pdetails tdetails : Json) (repos : List (List (String × Json))),
      ∃ info reposDF,
        get_project_product_infoRun (projectResp pdetails tdetails repos) =
          .ok ((info, reposDF, DataFrame.emptyDF, DataFrame.emptyDF), [])) ∧
    get_roadmapRun (roadmapResp []) = .error "KeyError: date" := by
  constructor
  · intro pdetails tdetails repos
    refine ⟨{ columns := ["Metric", "Value"],
              rows := [[some (.str "Project Details"), cellOf (some pdetails)],
                       [some (.str "Technology Details"), cellOf (some tdetails)]] },
            DataFrame.fillna (DataFrame.prettifyCols
              { columns := collectKeys repos,
                rows := repos.map (fun r =>
                  (collectKeys repos).map (fun c => cellOf (r.lookup c))) }) (.str "-"), ?_⟩
    have hnil : mkDFRecords [] = .ok { columns := [], rows := [] } := rfl
    simp [get_project_product_infoRun, projectResp, Json.get?, List.lookup, Json.getArr?,
      mkDFRecords_objs, hnil, Bind.bind, Except.bind, Pure.pure, Except.pure, shapeDateTable,
      DataFrame.pyEmpty, DataFrame.emptyDF, DataFrame.prettifyCols, List.isEmpty]
  · rfl

/-! ### Table invariants: null normalization and uniform row shape -/

theorem fillna_no_null (df : DataFrame) (v : Json) : (df.fillna v).hasNullCell = false := by
  simp only [DataFrame.hasNullCell, DataFrame.fillna, List.any_map]
  rw [List.any_eq_false]
  intro row hrow
  simp only [Function.comp, List.any_map]
  rw [Bool.not_eq_true, List.any_eq_false]
  intro cell hcell
  cases cell <;> simp

theorem replaceNone_no_null (df : DataFrame) (v : Json) :
    (df.replaceNone v).hasNullCell = false :=
  fillna_no_null df v

theorem wf_emptyDF : DataFrame.emptyDF.Wf := by
  intro row h
  simp [DataFrame.emptyDF] at h

theorem wf_mkDFRecords {recs : List Json} {df : DataFrame}
    (h : mkDFRecords recs = .ok df) : df.Wf := by
  unfold mkDFRecords at h
  obtain ⟨rs, hrs, h⟩ := (exceptBind_eq_ok _ _ _).mp h
  simp only [Except.ok.injEq] at h
  subst h
  intro row hrow
  obtain ⟨r, _, rfl⟩ := List.mem_map.mp hrow
  simp

theorem wf_fillna {df : DataFrame} (h : df.Wf) (v : Json) : (df.fillna v).Wf := by
  intro row hrow
  obtain ⟨r, hr, rfl⟩ := List.mem_map.mp hrow
  simp [DataFrame.fillna, h r hr]

theorem wf_replaceNone {df : DataFrame} (h : df.Wf) (v : Json) : (df.replaceNone v).Wf :=
  wf_fillna h v

theorem zipWith_cons_mem {α : Type} (vals : List α) (rows : List (List α)) (row : List α)
    (h : row ∈ List.zipWith (fun v r => v :: r) vals rows) :
    ∃ v r, r ∈ rows ∧ row = v :: r := by
  induction vals generalizing rows with
  | nil => simp [List.zipWith] at h
  | cons v vs ih =>
    cases rows with
    | nil => simp [List.zipWith] at h
    | cons r rs =>
      simp only [List.zipWith, List.mem_cons] at h
      rcases h with h | h
      · exact ⟨v, r, by simp, h⟩
      · obtain ⟨v2, r2, hr2, rfl⟩ := ih rs h
        exact ⟨v2, r2, by simp [hr2], rfl⟩

theorem wf_insertCol {df : DataFrame} (h : df.Wf) (name : String) (vals : List Cell) :
    (df.insertCol name vals).Wf := by
  intro row hrow
  simp only [DataFrame.insertCol] at hrow ⊢
  obtain ⟨v, r, hr, rfl⟩ := zipWith_cons_mem vals df.rows row hrow
  simp [h r hr]

theorem zip_filter_length (cols : List String) (row : List Cell) (q : String → Bool)
    (h : row.length = cols.length) :
    (((List.zipWith Prod.mk cols row).filter (fun p => q p.1)).map (fun p => p.2)).length =
      (cols.filter q).length := by
  induction cols generalizing row with
  | nil => simp
  | cons c cs ih =>
    cases row with
    | nil => simp at h
    | cons x xs =>
      simp only [List.length_cons] at h
      simp only [List.zipWith, List.filter]
      by_cases hq : q c
      · simp only [hq, List.map, List.length_cons]
        rw [ih xs (by omega)]
      · simp only [hq]
        rw [ih xs (by omega)]

theorem wf_dropCols {df d : DataFrame} (h : df.Wf) {names : List String} {ig : Bool}
    (hd : df.dropCols names ig = .ok d) : d.Wf := by
  unfold DataFrame.dropCols at hd
  split at hd
  · simp at hd
  · simp only [Except.ok.injEq] at hd
    subst hd
    intro row hrow
    obtain ⟨r, hr, rfl⟩ := List.mem_map.mp hrow
    simp only [List.zip]
    exact zip_filter_length df.columns r (fun c => !names.contains c) (h r hr)

theorem wf_capitalizeCols {df : DataFrame} (h : df.Wf) : df.capitalizeCols.Wf := by
  intro row hrow
  simp only [DataFrame.capitalizeCols] at hrow ⊢
  simp [h row hrow]

theorem no_null_of_wf_pyEmpty {df : DataFrame} (h : df.Wf) (he : df.pyEmpty = true) :
    df.hasNullCell = false := by
  unfold DataFrame.pyEmpty at he
  unfold DataFrame.hasNullCell
  rw [List.any_eq_false]
  intro row hrow
  simp only [Bool.or_eq_true, List.isEmpty_iff] at he
  rcases he with h1 | h2
  · rw [h1] at hrow
    simp at hrow
  · have hlen := h row hrow
    rw [h2] at hlen
    simp only [List.length_nil] at hlen
    rw [List.length_eq_zero.mp hlen]
    simp

theorem shapeIndividuals_props {df0 d : DataFrame} (hwf : df0.Wf)
    (h : shapeIndividuals df0 = .ok d) : d.hasNullCell = false ∧ d.Wf := by
  unfold shapeIndividuals at h
  split at h
  · simp only [Except.ok.injEq] at h
    subst h
    exact ⟨no_null_of_wf_pyEmpty hwf (by assumption), hwf⟩
  · obtain ⟨names, _, h⟩ := (exceptBind_eq_ok _ _ _).mp h
    obtain ⟨d2, hd2, h⟩ := (exceptBind_eq_ok _ _ _).mp h
    simp only [Except.ok.injEq] at h
    subst h
    exact ⟨replaceNone_no_null _ _,
      wf_replaceNone (wf_capitalizeCols (wf_dropCols (wf_insertCol (wf_fillna hwf _) _ _) hd2)) _⟩

theorem shapeOrganizations_props {df0 d : DataFrame} (hwf : df0.Wf)
    (h : shapeOrganizations df0 = .ok d) : d.hasNullCell = false ∧ d.Wf := by
  unfold shapeOrganizations at h
  split at h
  · simp only [Except.ok.injEq] at h
    subst h
    exact ⟨no_null_of_wf_pyEmpty hwf (by assumption), hwf⟩
  · obtain ⟨d2, hd2, h⟩ := (exceptBind_eq_ok _ _ _).mp h
    simp only [Except.ok.injEq] at h
    subst h
    exact ⟨replaceNone_no_null _ _, wf_replaceNone (wf_capitalizeCols (wf_dropCols hwf hd2)) _⟩

/-! ### C4 -/

/-- A 200 links response where the second link record lacks its `link` field. -/
def linksResp0 : Response :=
  { status := 200, text := "",
    body := Json.obj [("data", Json.obj [("profile", Json.obj [("general", Json.obj [("overview",
      Json.obj [("official_links", Json.arr
        [Json.obj [("name", Json.str "Website"), ("link", Json.str "https://x.test")],
         Json.obj [("name", Json.str "Forum")]])])])])])] }

/-- C4 (counterexample): `get_links` performs no null normalization — a link
record lacking a field yields a table with a missing/NaN cell, never replaced
by the `"-"` placeholder, refuting the claim for "every table returned by any
shaper". -/
theorem claim_c4_counterexample :
    get_linksRun linksResp0 =
      .ok ({ columns := ["Name", "Link"],
             rows := [[some (.str "Website"), some (.str "https://x.test")],
                      [some (.str "Forum"), none]] }, []) ∧
    DataFrame.hasNullCell
      { columns := ["Name", "Link"],
        rows := [[some (.str "Website"), some (.str "https://x.test")],
                 [some (.str "Forum"), none]] } = true := by
  exact ⟨rfl, rfl⟩

/-- C4 (amended): every row of a returned table carries the full column set
(the uniform-row invariant holds, including for `get_links`), and in the
shapers that normalize nulls — here `get_team`, whose pipeline ends in the
`None`-replacement — no missing/NaN cell survives in either returned table;
`get_links`, however, leaves missing fields as null cells. -/
theorem claim_c4_amended :
    (∀ (resp : Response) (ind org : DataFrame) (msgs : List String),
      get_teamRun resp = .ok ((ind, org), msgs) →
        ind.hasNullCell = false ∧ org.hasNullCell = false ∧ ind.Wf ∧ org.Wf) ∧
    (∀ (resp : Response) (df : DataFrame) (msgs : List String),
      get_linksRun resp = .ok (df, msgs) → df.Wf) := by
  constructor
  · intro resp ind org msgs h
    unfold get_teamRun at h
    split at h
    · obtain ⟨data, _, h⟩ := (exceptBind_eq_ok _ _ _).mp h
      obtain ⟨prof, _, h⟩ := (exceptBind_eq_ok _ _ _).mp h
      obtain ⟨contributors, _, h⟩ := (exceptBind_eq_ok _ _ _).mp h
      obtain ⟨indivJ, _, h⟩ := (exceptBind_eq_ok _ _ _).mp h
      obtain ⟨indivArr, _, h⟩ := (exceptBind_eq_ok _ _ _).mp h
      obtain ⟨indiv0, hindiv0, h⟩ := (exceptBind_eq_ok _ _ _).mp h
      obtain ⟨indiv1, hindiv1, h⟩ := (exceptBind_eq_ok _ _ _).mp h
      obtain ⟨orgJ, _, h⟩ := (exceptBind_eq_ok _ _ _).mp h
      obtain ⟨orgArr, _, h⟩ := (exceptBind_eq_ok _ _ _).mp h
      obtain ⟨org0, horg0, h⟩ := (exceptBind_eq_ok _ _ _).mp h
      obtain ⟨org1, horg1, h⟩ := (exceptBind_eq_ok _ _ _).mp h
      simp only [Except.ok.injEq, Prod.mk.injEq] at h
      obtain ⟨⟨h1, h2⟩, h3⟩ := h
      subst h1; subst h2
      obtain ⟨hn1, hw1⟩ := shapeIndividuals_props (wf_mkDFRecords hindiv0) hindiv1
      obtain ⟨hn2, hw2⟩ := shapeOrganizations_props (wf_mkDFRecords horg0) horg1
      exact ⟨hn1, hn2, hw1, hw2⟩
    · split at h <;>
      · simp only [Except.ok.injEq, Prod.mk.injEq] at h
        obtain ⟨⟨h1, h2⟩, h3⟩ := h
        subst h1; subst h2
        exact ⟨rfl, rfl, wf_emptyDF, wf_emptyDF⟩
  · intro resp df msgs h
    unfold get_linksRun at h
    split at h
    · obtain ⟨data, _, h⟩ := (exceptBind_eq_ok _ _ _).mp h
      obtain ⟨a1, _, h⟩ := (exceptBind_eq_ok _ _ _).mp h
      obtain ⟨a2, _, h⟩ := (exceptBind_eq_ok _ _ _).mp h
      obtain ⟨a3, _, h⟩ := (exceptBind_eq_ok _ _ _).mp h
      obtain ⟨a4, _, h⟩ := (exceptBind_eq_ok _ _ _).mp h
      obtain ⟨a5, _, h⟩ := (exceptBind_eq_ok _ _ _).mp h
      obtain ⟨df0, hdf0, h⟩ := (exceptBind_eq_ok _ _ _).mp h
      simp only [Except.ok.injEq, Prod.mk.injEq] at h
      obtain ⟨h1, h2⟩ := h
      subst h1
      exact wf_capitalizeCols (wf_mkDFRecords hdf0)
    · split at h <;>
      · simp only [Except.ok.injEq, Prod.mk.injEq] at h
        obtain ⟨h1, h2⟩ := h
        subst h1
        exact wf_emptyDF

/-- A 200 team response with one complete individual record. -/
def c4WitnessResp : Response :=
  { status := 200, text := "",
    body := Json.obj [("data", Json.obj [("profile", Json.obj [("contributors", Json.obj
      [("individuals", Json.arr [Json.obj
         [("first_name", Json.str "Ada"), ("last_name", Json.str "Lovelace"),
          ("title", Json.str "Boss")]]),
       ("organizations", Json.arr [])])])])] }

/-- C4 (witness): the amended theorem evaluated at a concrete team response. -/
theorem claim_c4_amended_witness :
    DataFrame.hasNullCell
      { columns := ["Name", "Title"],
        rows := [[some (Json.str "Ada Lovelace"), some (Json.str "Boss")]] } = false ∧
    DataFrame.hasNullCell { columns := [], rows := ([] : List (List Cell)) } = false ∧
    DataFrame.Wf
      { columns := ["Name", "Title"],
        rows := [[some (Json.str "Ada Lovelace"), some (Json.str "Boss")]] } ∧
    DataFrame.Wf { columns := [], rows := ([] : List (List Cell)) } :=
  claim_c4_amended.1 c4WitnessResp
    { columns := ["Name", "Title"],
      rows := [[some (Json.str "Ada Lovelace"), some (Json.str "Boss")]] }
    { columns := [], rows := [] } [] rfl

/-! ### C8 -/

/-- A 200 fundraising response with one sales round (ISO start/end
timestamps), no treasury accounts and a null genesis date. -/
def fundResp (launch_details launch_type isupply p1 p2 p3 : Json) (t sd ed : String) :
    Response :=
  { status := 200, text := "",
    body := Json.obj [("data", Json.obj [("profile", Json.obj [("economics", Json.obj
      [("launch", Json.obj
        [("general", Json.obj
           [("launch_details", launch_details), ("launch_style", launch_type)]),
         ("fundraising", Json.obj
           [("sales_rounds", Json.arr [Json.obj
              [("title", Json.str t), ("start_date", Json.str sd), ("end_date", Json.str ed)]]),
            ("sales_treasury_accounts", Json.arr [])]),
         ("initial_distribution", Json.obj
           [("genesis_block_date", Json.null),
            ("initial_supply", isupply),
            ("initial_supply_repartition", Json.obj
              [("allocated_to_investors_percentage", p1),
               ("allocated_to_organization_or_founders_percentage", p2),
               ("allocated_to_premined_rewards_or_airdrops_percentage", p3)])])])])])])] }

set_option maxHeartbeats 1000000 in
/-- C8 (confirmed): in `get_fundraising`'s sales-rounds table, the `Start
Date` and `End Date` values are reduced to their prefix before the first
`'T'` (for any start/end strings, and in particular
`"2021-06-01T00:00:00Z"` becomes `"2021-06-01"`), while the raw snake_case
field names surface as the spaced `Start Date` / `End Date` column labels. -/
theorem claim_c8 (ld lt isupply : Json) (t sd ed : String) (fnum : Json → String) :
    get_fundraisingRun fnum (fundResp ld lt isupply (Json.num 5) (Json.num 6) (Json.num 7) t sd ed) =
      .ok ((ld,
        { columns := ["Title", "Start Date", "End Date"],
          rows := [[some (.str t), some (.str (pySplitTHead sd)),
                    some (.str (pySplitTHead ed))]] },
        { columns := [], rows := [] },
        { columns := ["Metric", "Value"],
          rows := [[some (.str "Genesis Date"), some (.str "-")],
                   [some (.str "Type"), cellOf (some lt)],
                   [some (.str "Total Supply"), some (.str (fnum isupply))],
                   [some (.str "Investors [%]"), some (.num 5)],
                   [some (.str "Organization/Founders [%]"), some (.num 6)],
                   [some (.str "Rewards/Airdrops [%]"), some (.num 7)]] }), []) ∧
    pySplitTHead "2021-06-01T00:00:00Z" = "2021-06-01" := by
  exact ⟨rfl, by decide⟩

/-! ### C9 -/

/-- A 200 team/investors profile payload with one complete individual record
and no organizations, for the given profile section name
(`"contributors"` or `"investors"`). -/
def individualsBody (section_ : String) (fn ln sl av t : String) : Json :=
  Json.obj [("data", Json.obj [("profile", Json.obj [(section_, Json.obj
    [("individuals", Json.arr [Json.obj
       [("first_name", Json.str fn), ("last_name", Json.str ln),
        ("slug", Json.str sl), ("avatar_url", Json.str av), ("title", Json.str t)]]),
     ("organizations", Json.arr [])])])])]

set_option maxHeartbeats 1000000 in
/-- C9 (confirmed): in both `get_team` and `get_investors`, an individual
record yields a synthesized `Name` cell equal to the first and last names
joined by a single space (so "Ada"/"Lovelace" gives "Ada Lovelace"), and the
output table's columns no longer include the raw first-name, last-name, slug
or avatar columns — only `Name` and the capitalized remaining field. -/
theorem claim_c9 (fn ln sl av t : String) :
    get_teamRun { status := 200, text := "", body := individualsBody "contributors" fn ln sl av t } =
      .ok (({ columns := ["Name", "Title"],
              rows := [[some (.str (fn ++ " " ++ ln)), some (.str t)]] },
            { columns := [], rows := [] }), []) ∧
    get_investorsRun { status := 200, text := "", body := individualsBody "investors" fn ln sl av t } =
      .ok (({ columns := ["Name", "Title"],
              rows := [[some (.str (fn ++ " " ++ ln)), some (.str t)]] },
            { columns := [], rows := [] }), []) := by
  exact ⟨rfl, rfl⟩

/-! ### C10 -/

/-- A 200 team/investors profile payload whose single individual record
carries a null first name. -/
def nullFirstNameBody (section_ : String) (ln : String) : Json :=
  Json.obj [("data", Json.obj [("profile", Json.obj [(section_, Json.obj
    [("individuals", Json.arr
       [Json.obj [("first_name", Json.null), ("last_name", Json.str ln)]]),
     ("organizations", Json.arr [])])])])]

/-- A 200 team profile payload where the first record lacks the first-name
key entirely (the column exists because the second record carries it). -/
def missingFirstNameBody : Json :=
  Json.obj [("data", Json.obj [("profile", Json.obj [("contributors", Json.obj
    [("individuals", Json.arr
       [Json.obj [("last_name", Json.str "Lovelace")],
        Json.obj [("first_name", Json.str "Alan"), ("last_name", Json.str "Turing")]]),
     ("organizations", Json.arr [])])])])]

set_option maxHeartbeats 1000000 in
/-- C10 (confirmed): nulls are replaced with `"-"` before the `Name` field is
synthesized, so a record with a null first name still yields a `Name`
(`"- <last>"`), in both `get_team` and `get_investors`; the same holds for a
record whose first-name key is absent while the column exists. -/
theorem claim_c10 (ln : String) :
    get_teamRun { status := 200, text := "", body := nullFirstNameBody "contributors" ln } =
      .ok (({ columns := ["Name"], rows := [[some (.str ("- " ++ ln))]] },
            { columns := [], rows := [] }), []) ∧
    get_investorsRun { status := 200, text := "", body := nullFirstNameBody "investors" ln } =
      .ok (({ columns := ["Name"], rows := [[some (.str ("- " ++ ln))]] },
            { columns := [], rows := [] }), []) ∧
    get_teamRun { status := 200, text := "", body := missingFirstNameBody } =
      .ok (({ columns := ["Name"],
              rows := [[some (.str "- Lovelace")], [some (.str "Alan Turing")]] },
            { columns := [], rows := [] }), []) := by
  exact ⟨rfl, rfl, rfl⟩

def rstripData (l : List Char) : List Char :=
  (l.reverse.dropWhile (fun c => c == ',')).reverse

theorem rstripCommas_data (s : String) : rstripCommas s = String.mk (rstripData s.data) := rfl

theorem sourcesFold_data (names : List String) : ∀ (acc : String),
    (names.foldl (fun a n => a ++ n ++ ",") acc).data
      = acc.data ++ (names.map (fun n => n.data ++ [','])).flatten := by
  induction names with
  | nil => intro acc; simp
  | cons n ns ih =>
    intro acc
    simp only [List.foldl, List.map_cons, List.flatten_cons, ih]
    simp [String.data_append, List.append_assoc]

theorem pyJoin_tail_data (ns : List String) : ∀ (a : String),
    (ns.foldl (fun acc x => acc ++ "," ++ x) a).data
      = a.data ++ (ns.map (fun x => ',' :: x.data)).flatten := by
  induction ns with
  | nil => intro a; simp
  | cons x xs ih =>
    intro a
    simp only [List.foldl, List.map_cons, List.flatten_cons, ih]
    simp [String.data_append, List.append_assoc]

theorem pyJoin_data (n : String) (ns : List String) :
    (pyJoin "," (n :: ns)).data = n.data ++ (ns.map (fun x => ',' :: x.data)).flatten := by
  simp [pyJoin, pyJoin_tail_data]

theorem dropWhile_comma_of_no_comma (l : List Char) (h : ',' ∉ l) :
    List.dropWhile (fun c => c == ',') l = l := by
  cases l with
  | nil => rfl
  | cons c cs =>
    simp only [List.mem_cons, not_or] at h
    have hc : (c == ',') = false := by
      rw [beq_eq_false_iff_ne]
      exact fun hcc => h.1 hcc.symm
    simp [List.dropWhile_cons, hc]

theorem rstripData_append_of_ne_nil (a b : List Char)
    (h : (b.reverse.dropWhile (fun c => c == ',')) ≠ []) :
    rstripData (a ++ b) = a ++ rstripData b := by
  unfold rstripData
  rw [List.reverse_append, List.dropWhile_append]
  rw [if_neg (by simpa [List.isEmpty_iff] using h)]
  rw [List.reverse_append, List.reverse_reverse]

theorem rstripData_block (n : List Char) (hc : ',' ∉ n) :
    rstripData (n ++ [',']) = n := by
  unfold rstripData
  rw [List.reverse_append]
  simp only [List.reverse_cons, List.reverse_nil, List.nil_append, List.singleton_append]
  rw [List.dropWhile_cons]
  simp only [beq_self_eq_true, if_true]
  rw [dropWhile_comma_of_no_comma n.reverse (by simpa using hc)]
  simp

theorem rstripData_ne_nil_of_eq (b : List Char) (v : List Char) (hb : rstripData b = v)
    (hv : v ≠ []) : (b.reverse.dropWhile (fun c => c == ',')) ≠ [] := by
  intro hempty
  apply hv
  rw [← hb]
  unfold rstripData
  rw [hempty]
  rfl

theorem join_blocks_strip (m : String) (ms : List String)
    (H : ∀ x ∈ m :: ms, x.data ≠ [] ∧ ',' ∉ x.data) :
    rstripData (((m :: ms).map (fun x => x.data ++ [','])).flatten)
      = m.data ++ (ms.map (fun x => ',' :: x.data)).flatten := by
  induction ms generalizing m with
  | nil =>
    simp only [List.map_cons, List.map_nil, List.flatten_cons, List.flatten_nil,
      List.append_nil]
    exact rstripData_block m.data (H m (by simp)).2
  | cons k ks ih =>
    have Hk : ∀ x ∈ k :: ks, x.data ≠ [] ∧ ',' ∉ x.data := by
      intro x hx
      apply H x
      simp only [List.mem_cons] at hx ⊢
      tauto
    have hk := Hk k (by simp)
    have hB := ih k Hk
    have hne := rstripData_ne_nil_of_eq _ _ hB (by
      intro hnil
      rw [List.append_eq_nil] at hnil
      exact hk.1 hnil.1)
    simp only [List.map_cons, List.flatten_cons] at hB hne ⊢
    rw [rstripData_append_of_ne_nil _ _ hne, hB]
    simp [List.append_assoc]

theorem sources_code_eq_join (names : List String)
    (H : ∀ x ∈ names, x.data ≠ [] ∧ ',' ∉ x.data) :
    rstripCommas (names.foldl (fun a n => a ++ n ++ ",") "") = pyJoin "," names := by
  cases names with
  | nil => rfl
  | cons n ns =>
    rw [rstripCommas_data]
    have hdata : rstripData ((n :: ns).foldl (fun a n => a ++ n ++ ",") "").data
        = (pyJoin "," (n :: ns)).data := by
      rw [sourcesFold_data]
      show rstripData ([] ++ _) = _
      rw [List.nil_append]
      rw [join_blocks_strip n ns H, pyJoin_data]
    rw [hdata]

structure MetricSpec where
  metric_id : String
  metric_name : String
  metric_descr : String
  role_restriction : Option Json
  source_names : List String

def metricFields (m : MetricSpec) : List (String × Json) :=
  [("metric_id", .str m.metric_id), ("name", .str m.metric_name),
   ("description", .str m.metric_descr),
   ("source_attribution", .arr (m.source_names.map (fun n => Json.obj [("name", .str n)])))]
  ++ (match m.role_restriction with
      | some v => [("role_restriction", v)]
      | none => [])

def metricJson (m : MetricSpec) : Json := .obj (metricFields m)

def availRecordFields (m : MetricSpec) : List (String × Json) :=
  [("id", .str m.metric_id), ("Title", .str m.metric_name),
   ("Description", .str m.metric_descr),
   ("Requires Paid Key", .bool m.role_restriction.isSome),
   ("Sources", .str (pyJoin "," m.source_names))]

theorem srcFoldAux (names : List String) : ∀ (acc : String),
    (names.map (fun n => Json.obj [("name", Json.str n)])).foldlM
      (fun acc source => do
        let n ← jStr (← source.get? "name")
        Except.ok (acc ++ n ++ ",")) acc
      = Except.ok (names.foldl (fun a n => a ++ n ++ ",") acc) := by
  induction names with
  | nil => intro acc; rfl
  | cons n ns ih =>
    intro acc
    simp only [List.map_cons, List.foldlM, List.foldl]
    show (do
      let x ← (do
        let y ← jStr (← (Json.obj [("name", Json.str n)]).get? "name")
        Except.ok (acc ++ y ++ ","))
      (ns.map (fun n => Json.obj [("name", Json.str n)])).foldlM _ x) = _
    rw [show ((Json.obj [("name", Json.str n)]).get? "name") = Except.ok (Json.str n) from rfl]
    exact ih (acc ++ n ++ ",")

theorem srcFold (names : List String) :
    sourcesOfSrcs (names.map (fun n => Json.obj [("name", Json.str n)]))
      = Except.ok (names.foldl (fun a n => a ++ n ++ ",") "") := by
  unfold sourcesOfSrcs
  exact srcFoldAux names ""

theorem hasKey_metricJson (m : MetricSpec) :
    (metricJson m).hasKey "role_restriction" = m.role_restriction.isSome := by
  obtain ⟨mid, mname, mdescr, role, names⟩ := m
  cases role <;> rfl

theorem availMetricRecord_eq (m : MetricSpec)
    (H : ∀ x ∈ m.source_names, x.data ≠ [] ∧ ',' ∉ x.data) :
    availMetricRecord (metricJson m) = .ok (Json.obj (availRecordFields m)) := by
  obtain ⟨mid, mname, mdescr, role, names⟩ := m
  have hs := sources_code_eq_join names H
  cases role <;>
    simp [availMetricRecord, metricJson, metricFields, availRecordFields, Json.get?,
      List.lookup, Json.getArr?, Json.hasKey, Bind.bind, Except.bind, srcFold, hs]

theorem innerFold_mem (r : List (String × Json)) : ∀ (acc : List String),
    (∀ kv ∈ r, acc.contains kv.1 = true) →
    r.foldl (fun acc2 kv => if acc2.contains kv.1 then acc2 else acc2 ++ [kv.1]) acc = acc := by
  induction r with
  | nil => intro acc _; rfl
  | cons kv r' ih =>
    intro acc h
    simp only [List.foldl]
    rw [if_pos (h kv (by simp))]
    exact ih acc (fun kv2 h2 => h kv2 (by simp [h2]))

theorem availKeys_mem (m : MetricSpec) :
    ∀ kv ∈ availRecordFields m,
      (["id", "Title", "Description", "Requires Paid Key", "Sources"] : List String).contains
        kv.1 = true := by
  intro kv hkv
  simp only [availRecordFields, List.mem_cons, List.not_mem_nil, or_false] at hkv
  rcases hkv with rfl | rfl | rfl | rfl | rfl <;> rfl

theorem foldl_inner_const (K : List String) (rs : List (List (String × Json)))
    (h : ∀ r ∈ rs, ∀ kv ∈ r, K.contains kv.1 = true) :
    rs.foldl (fun acc r =>
      r.foldl (fun acc2 kv => if acc2.contains kv.1 then acc2 else acc2 ++ [kv.1]) acc) K = K := by
  induction rs with
  | nil => rfl
  | cons r rs' ih =>
    simp only [List.foldl]
    rw [innerFold_mem r K (h r (by simp))]
    exact ih (fun r2 h2 kv hkv => h r2 (by simp [h2]) kv hkv)

theorem collectKeys_avail (m : MetricSpec) (ms : List MetricSpec) :
    collectKeys ((m :: ms).map availRecordFields) =
      ["id", "Title", "Description", "Requires Paid Key", "Sources"] := by
  rw [List.map_cons]
  rw [show collectKeys (availRecordFields m :: ms.map availRecordFields)
      = (ms.map availRecordFields).foldl
          (fun acc r =>
            r.foldl (fun acc2 kv => if acc2.contains kv.1 then acc2 else acc2 ++ [kv.1]) acc)
          ((availRecordFields m).foldl
            (fun acc2 kv => if acc2.contains kv.1 then acc2 else acc2 ++ [kv.1]) []) from rfl]
  rw [show (availRecordFields m).foldl
      (fun acc2 kv => if acc2.contains kv.1 then acc2 else acc2 ++ [kv.1]) ([] : List String)
      = ["id", "Title", "Description", "Requires Paid Key", "Sources"] from rfl]
  exact foldl_inner_const _ _ (fun r hr => by
    obtain ⟨m2, _, rfl⟩ := List.mem_map.mp hr
    exact availKeys_mem m2)

theorem mapM_loop_map_ok {α β γ : Type} (e : α → β) (f : β → Except String γ) (g : α → γ) :
    ∀ (l : List α), (∀ a ∈ l, f (e a) = .ok (g a)) →
      ∀ (acc : List γ), List.mapM.loop f (l.map e) acc = .ok (acc.reverse ++ l.map g) := by
  intro l
  induction l with
  | nil => intro _ acc; simp [List.mapM.loop, Pure.pure, Except.pure]
  | cons a as ih =>
    intro hf acc
    have ha := hf a (by simp)
    simp only [List.map_cons, List.mapM.loop, ha, Bind.bind, Except.bind]
    rw [ih (fun x hx => hf x (by simp [hx]))]
    simp

theorem mapM_map_ok {α β γ : Type} (e : α → β) (f : β → Except String γ) (g : α → γ)
    (l : List α) (hf : ∀ a ∈ l, f (e a) = .ok (g a)) :
    (l.map e).mapM f = .ok (l.map g) := by
  have := mapM_loop_map_ok e f g l hf []
  simpa [List.mapM] using this

theorem ok_bind {α β : Type} (a : α) (f : α → Except String β) :
    (Except.ok a : Except String α) >>= f = f a := rfl

def availResp (ms : List MetricSpec) : Response :=
  { status := 200, text := "",
    body := .obj [("data", .obj [("metrics", .arr (ms.map metricJson))])] }

/-- C7 (confirmed): on a 200 metrics-catalogue response, the shaped table has
one record per metric of the payload, indexed by metric id; the `Requires
Paid Key` cell is `true` exactly when the metric JSON object carries a
`role_restriction` field; and the `Sources` cell is the source names joined
by commas with no trailing comma (the code's trailing-comma `rstrip` equals
the plain comma-join whenever the source names are non-empty and comma-free,
which the hypothesis assumes). -/
theorem claim_c7 (ms : List MetricSpec) (hne : ms ≠ [])
    (H : ∀ m ∈ ms, ∀ x ∈ m.source_names, x.data ≠ [] ∧ ',' ∉ x.data) :
    get_available_timeseriesRun (availResp ms) =
      .ok ({ columns := ["Title", "Description", "Requires Paid Key", "Sources"],
             rows := ms.map (fun m =>
               [some (.str m.metric_name), some (.str m.metric_descr),
                some (.bool m.role_restriction.isSome),
                some (.str (pyJoin "," m.source_names))]),
             indexName := some "id",
             index := ms.map (fun m => some (.str m.metric_id)) }, []) := by
  obtain ⟨m0, ms', rfl⟩ : ∃ a l, ms = a :: l := by
    cases ms with
    | nil => exact absurd rfl hne
    | cons a l => exact ⟨a, l, rfl⟩
  have hmapM : ((m0 :: ms').map metricJson).mapM availMetricRecord
      = .ok ((m0 :: ms').map (fun m => Json.obj (availRecordFields m))) :=
    mapM_map_ok metricJson availMetricRecord (fun m => Json.obj (availRecordFields m))
      (m0 :: ms') (fun m hm => availMetricRecord_eq m (H m hm))
  have hmk : mkDFRecords ((m0 :: ms').map (fun m => Json.obj (availRecordFields m)))
      = .ok { columns := ["id", "Title", "Description", "Requires Paid Key", "Sources"],
              rows := (m0 :: ms').map (fun m =>
                [some (.str m.metric_id), some (.str m.metric_name),
                 some (.str m.metric_descr), some (.bool m.role_restriction.isSome),
                 some (.str (pyJoin "," m.source_names))]) } := by
    rw [show ((m0 :: ms').map (fun m => Json.obj (availRecordFields m)))
        = ((m0 :: ms').map availRecordFields).map Json.obj from by
      rw [List.map_map]; rfl]
    rw [mkDFRecords_objs]
    rw [collectKeys_avail]
    have hrows : ((m0 :: ms').map availRecordFields).map
        (fun r => (["id", "Title", "Description", "Requires Paid Key", "Sources"] :
            List String).map (fun c => cellOf (r.lookup c)))
        = (m0 :: ms').map (fun m =>
            [some (Json.str m.metric_id), some (Json.str m.metric_name),
             some (Json.str m.metric_descr), some (Json.bool m.role_restriction.isSome),
             some (Json.str (pyJoin "," m.source_names))]) := by
      rw [List.map_map]
      apply List.map_congr_left
      intro m _
      rfl
    rw [hrows]
  have hset : DataFrame.setIndex
      { columns := ["id", "Title", "Description", "Requires Paid Key", "Sources"],
        rows := (m0 :: ms').map (fun m =>
          [some (.str m.metric_id), some (.str m.metric_name),
           some (.str m.metric_descr), some (.bool m.role_restriction.isSome),
           some (.str (pyJoin "," m.source_names))]) } "id"
      = .ok { columns := ["Title", "Description", "Requires Paid Key", "Sources"],
              rows := (m0 :: ms').map (fun m =>
                [some (.str m.metric_name), some (.str m.metric_descr),
                 some (.bool m.role_restriction.isSome),
                 some (.str (pyJoin "," m.source_names))]),
              indexName := some "id",
              index := (m0 :: ms').map (fun m => some (.str m.metric_id)) } := by
    unfold DataFrame.setIndex
    rw [if_pos (by rfl)]
    have hrows2 : ((m0 :: ms').map (fun m =>
          [some (Json.str m.metric_id), some (Json.str m.metric_name),
           some (Json.str m.metric_descr), some (Json.bool m.role_restriction.isSome),
           some (Json.str (pyJoin "," m.source_names))])).map (fun row =>
        (((["id", "Title", "Description", "Requires Paid Key", "Sources"] :
            List String).zip row).filter (fun p => p.1 != "id")).map (fun p => p.2))
        = (m0 :: ms').map (fun m =>
            [some (Json.str m.metric_name), some (Json.str m.metric_descr),
             some (Json.bool m.role_restriction.isSome),
             some (Json.str (pyJoin "," m.source_names))]) := by
      rw [List.map_map]
      apply List.map_congr_left
      intro m _
      rfl
    have hindex : ((m0 :: ms').map (fun m =>
          [some (Json.str m.metric_id), some (Json.str m.metric_name),
           some (Json.str m.metric_descr), some (Json.bool m.role_restriction.isSome),
           some (Json.str (pyJoin "," m.source_names))])).map (fun row =>
        (((["id", "Title", "Description", "Requires Paid Key", "Sources"] :
            List String).zip row).lookup "id").getD none)
        = (m0 :: ms').map (fun m => some (Json.str m.metric_id)) := by
      rw [List.map_map]
      apply List.map_congr_left
      intro m _
      rfl
    simp only [DataFrame.colCells]
    rw [hrows2, hindex]
    rfl
  have h_data : (availResp (m0 :: ms')).body.get? "data"
      = Except.ok (Json.obj [("metrics", Json.arr ((m0 :: ms').map metricJson))]) := rfl
  have h_metrics : (Json.obj [("metrics", Json.arr ((m0 :: ms').map metricJson))]).get? "metrics"
      = Except.ok (Json.arr ((m0 :: ms').map metricJson)) := rfl
  have h_arr : (Json.arr ((m0 :: ms').map metricJson)).getArr?
      = Except.ok ((m0 :: ms').map metricJson) := rfl
  unfold get_available_timeseriesRun
  rw [if_pos (show (availResp (m0 :: ms')).status = 200 from rfl)]
  simp only [h_data, h_metrics, h_arr, ok_bind, hmapM, hmk, hset]

def wMetricA : MetricSpec :=
  { metric_id := "mcap.dom", metric_name := "Market Cap Dominance",
    metric_descr := "dominance description", role_restriction := none,
    source_names := ["CoinGecko", "Messari"] }

def wMetricB : MetricSpec :=
  { metric_id := "sply.circ", metric_name := "Circulating Supply",
    metric_descr := "supply description", role_restriction := some (Json.str "pro"),
    source_names := [] }

/-- C7 (witness): the theorem evaluated at a concrete two-metric catalogue,
one free metric with two sources and one role-restricted metric. -/
theorem claim_c7_witness :
    get_available_timeseriesRun (availResp [wMetricA, wMetricB]) =
      .ok ({ columns := ["Title", "Description", "Requires Paid Key", "Sources"],
             rows := [[some (.str "Market Cap Dominance"), some (.str "dominance description"),
                       some (.bool false), some (.str "CoinGecko,Messari")],
                      [some (.str "Circulating Supply"), some (.str "supply description"),
                       some (.bool true), some (.str "")]],
             indexName := some "id",
             index := [some (.str "mcap.dom"), some (.str "sply.circ")] }, []) :=
  claim_c7 [wMetricA, wMetricB] (List.cons_ne_nil _ _) (by decide)
